import Mathlib

/-!
# HEIF round-trip pipeline (`src/main.cpp`): embedding and properties

The program decodes the first top-level image of a HEIF container into a packed
pixel buffer and re-encodes it.  The codec library (libheif) is an external
collaborator; it is modelled as a record of responses (`Codec`), and every call
made to it is appended to a trace of `Event`s.

Modelling conventions
* `int` dimensions, strides and counts are natural numbers: the model covers
  the non-negative range in which the C++ `int` arithmetic does not overflow.
* `std::vector<uint8_t>` and codec planes are `List UInt8`.
* Pointer arithmetic is checked: an access outside a buffer yields `none`
  (undefined behaviour in the C++ source).
* A C++ `throw` is the exit `Exit.thrown`.
* Calls on a codec context and calls that create, modify or release a codec
  object are recorded in the trace; `const` getters on an image handle or an
  image (width, height, alpha flags, profile, plane pointer) are not.
-/

namespace Heif

/-! ## Buffers and `std::copy_n` -/

/-- Contents of a `std::vector<uint8_t>` or of a codec plane. -/
abbrev Bytes := List UInt8

/-- Model of `std::copy_n(src + first, count, dst + result)`: `count` bytes are copied
one at a time, front to back.  A read outside `src` or a write outside `dst`
yields `none`. -/
def copy_n (src : Bytes) : (first count : Nat) → (dst : Bytes) → (result : Nat) → Option Bytes
  | _, 0, dst, _ => some dst
  | first, count + 1, dst, result =>
    match src[first]? with
    | none => none
    | some b =>
      if result < dst.length then
        copy_n src (first + 1) count (dst.set result b) (result + 1)
      else none

/-- Model of `std::vector<uint8_t>::resize(n)`: keeps the first `n` bytes and
value-initialises (zeroes) any new ones. -/
def resize (v : Bytes) (n : Nat) : Bytes :=
  v.take n ++ List.replicate (n - v.length) 0

/-- Row loop of `decode_image` (lines 83-85):
`for y in [0,img_height): copy_n(data + y*stride, img_width*img_channels,
image_data.data() + y*img_width*img_channels)`. -/
def compactRows (data : Bytes) (stride img_width img_height img_channels : Nat)
    (image_data : Bytes) : Option Bytes :=
  (List.range img_height).foldlM
    (fun img y => copy_n data (y * stride) (img_width * img_channels) img
      (y * img_width * img_channels))
    image_data

/-- Decode-side plane transfer, lines 82-85 of `decode_image`: resize `image_data` to
`img_width * img_height * img_channels`, then run the row loop. -/
def toCompact (data : Bytes) (stride img_width img_height img_channels : Nat)
    (image_data : Bytes) : Option Bytes :=
  compactRows data stride img_width img_height img_channels
    (resize image_data (img_width * img_height * img_channels))

/-- Encode-side plane transfer, lines 124-126 of `encode_image`:
`for y in [0,img_height): copy_n(image_data.data() + y*img_width*img_channels,
img_width*img_channels, p + y*stride)`. -/
def toStrided (image_data : Bytes) (stride img_width img_height img_channels : Nat)
    (p : Bytes) : Option Bytes :=
  (List.range img_height).foldlM
    (fun plane y => copy_n image_data (y * img_width * img_channels)
      (img_width * img_channels) plane (y * stride))
    p

/-! ## Codec collaborator -/

/-- The fields of libheif's `struct heif_error` that the program inspects. -/
structure heif_error where
  code : Nat
  message : String
deriving DecidableEq, Repr

/-- Enumerator `heif_error_Ok` of libheif's `heif_error_code`; its value is 0. -/
def heif_error_Ok : Nat := 0

/-- The enumerators of libheif's `heif_chroma` that the program names. -/
inductive heif_chroma
  | heif_chroma_interleaved_RGB
  | heif_chroma_interleaved_RGBA
  | heif_chroma_interleaved_RRGGBBAA_BE
deriving DecidableEq, Repr

open heif_chroma

/-- What the getters on a `const heif_image_handle*` return: width, height, the two
alpha flags (C `int`s) and the raw colour profile (its size is the length). -/
structure heif_image_handle where
  width : Nat
  height : Nat
  has_alpha_channel : Int
  is_premultiplied_alpha : Int
  raw_color_profile : Bytes
deriving DecidableEq, Repr

/-- The four kinds of codec object the program acquires and releases. -/
inductive Resource
  | context
  | image_handle
  | image
  | encoder
deriving DecidableEq, Repr

/-- One recorded codec call.  A `Bool` argument named `acquired` tells whether the
call handed out an object; `nonnull` tells whether the released pointer was
non-null. -/
inductive Event
  | heif_context_alloc
  | heif_context_read_from_file (filename : String)
  | heif_context_get_number_of_top_level_images
  | heif_context_get_list_of_top_level_image_IDs (count : Nat)
  | heif_context_get_image_handle (id : Nat) (acquired : Bool)
  | heif_decode_image (chroma : heif_chroma) (acquired : Bool)
  | heif_image_release (nonnull : Bool)
  | heif_image_handle_release
  | heif_context_free
  | heif_context_get_encoder_for_format (acquired : Bool)
  | heif_encoder_set_lossless (enable : Bool)
  | heif_image_create (width height : Nat) (chroma : heif_chroma) (acquired : Bool)
  | heif_image_add_plane (width height bit_depth : Nat)
  | heif_context_encode_image (plane : Bytes) (acquired : Bool)
  | heif_image_set_raw_color_profile (tag : String) (data : Bytes) (size : Nat)
  | heif_context_write_to_file (filename : String)
  | heif_encoder_release
deriving DecidableEq, Repr

/-- The resource an event acquires, if any. -/
def Event.acquires : Event → Option Resource
  | .heif_context_alloc => some .context
  | .heif_context_get_image_handle _ true => some .image_handle
  | .heif_decode_image _ true => some .image
  | .heif_context_get_encoder_for_format true => some .encoder
  | .heif_image_create _ _ _ true => some .image
  | .heif_context_encode_image _ true => some .image_handle
  | _ => none

/-- The resource an event releases, if any (releasing a null pointer releases nothing). -/
def Event.releases : Event → Option Resource
  | .heif_context_free => some .context
  | .heif_image_handle_release => some .image_handle
  | .heif_image_release true => some .image
  | .heif_encoder_release => some .encoder
  | _ => none

/-- Number of acquisitions of resource kind `r` in a trace. -/
def acquireCount (r : Resource) (t : List Event) : Nat :=
  t.countP (fun e => e.acquires = some r)

/-- Number of releases of resource kind `r` in a trace. -/
def releaseCount (r : Resource) (t : List Event) : Nat :=
  t.countP (fun e => e.releases = some r)

/-- A codec test double: the response it gives to each call of the program.
Decode side: status of `heif_context_read_from_file`, the image count, the IDs
written by `heif_context_get_list_of_top_level_image_IDs`, status and handle of
`heif_context_get_image_handle` per ID, status of `heif_decode_image` and whether
it stored an image, the pointer and stride of `heif_image_get_plane_readonly`
(`none` is a null pointer), status of `heif_image_handle_get_raw_color_profile`.
Encode side: whether `heif_context_get_encoder_for_format` stored an encoder,
statuses of `heif_image_create` and `heif_image_add_plane`, pointer and stride of
`heif_image_get_plane`, statuses of `heif_context_encode_image` and
`heif_image_set_raw_color_profile`. -/
structure Codec where
  read_from_file : heif_error
  number_of_top_level_images : Nat
  list_of_top_level_image_IDs : List Nat
  get_image_handle : Nat → heif_error × heif_image_handle
  decode_image_status : heif_error
  decoded_image : Bool
  plane_readonly : Option (Bytes × Nat)
  get_raw_color_profile : heif_error
  encoder : Bool
  image_create : heif_error
  image_add_plane : heif_error
  plane : Option (Bytes × Nat)
  encode_image : heif_error
  set_raw_color_profile : heif_error

/-! ## Program state -/

/-- The global variables of `main.cpp` (lines 9-11); the two context pointers are
represented by the trace. -/
structure Globals where
  img_width : Nat
  img_height : Nat
  img_channels : Nat
  image_data : Bytes
  icc_color_profile_data : Bytes
deriving DecidableEq, Repr

/-- How a function ends: normal return, a C++ `throw` with its message, or an access
outside a buffer. -/
inductive Exit
  | returned
  | thrown (message : String)
  | undefined_behaviour
deriving DecidableEq, Repr

/-- Result of running a pipeline stage: the codec calls made, the globals at exit and
the kind of exit. -/
structure Outcome where
  trace : List Event
  globals : Globals
  exit : Exit
deriving DecidableEq, Repr

/-! ## The program -/

/-- Lines 13-26: a null pointer or code `heif_error_Ok` returns; any other code throws
the message. -/
def check_err (err : Option heif_error) : Except String Unit :=
  match err with
  | none => .ok ()
  | some e => if e.code = heif_error_Ok then .ok () else .error e.message

/-- Lines 28-31: `heif_context_get_image_handle` followed by `check_err`. -/
def get_img_handle (codec : Codec) (id : Nat) : List Event × Except String heif_image_handle :=
  let err := (codec.get_image_handle id).1
  match check_err (some err) with
  | .error m => ([Event.heif_context_get_image_handle id false], .error m)
  | .ok _ => ([Event.heif_context_get_image_handle id true], .ok (codec.get_image_handle id).2)

/-- Line 33. -/
def get_img_count (codec : Codec) : Nat := codec.number_of_top_level_images

/-- Lines 35-44: throws "DataNotExists" when the count is zero; otherwise builds a
vector of `imgCount` zeroes into which the codec writes at most `imgCount` IDs. -/
def getImageIDs (codec : Codec) : List Event × Except String (List Nat) :=
  let imgCount := get_img_count codec
  if imgCount = 0 then
    ([Event.heif_context_get_number_of_top_level_images], .error "DataNotExists")
  else
    let ids : List Nat := List.replicate imgCount 0
    let written := codec.list_of_top_level_image_IDs.take imgCount
    ([Event.heif_context_get_number_of_top_level_images,
      Event.heif_context_get_list_of_top_level_image_IDs imgCount],
     .ok (written ++ ids.drop written.length))

/-- Line 46. -/
def has_alpha (handle : heif_image_handle) : Bool := decide (handle.has_alpha_channel ≠ 0)

/-- Line 48. -/
def has_premultipled_alpha (handle : heif_image_handle) : Bool :=
  decide (handle.is_premultiplied_alpha ≠ 0)

/-- Lines 50-57. -/
def get_img_handleColorSpace (handle : heif_image_handle) : heif_chroma :=
  if has_premultipled_alpha handle then heif_chroma_interleaved_RRGGBBAA_BE
  else if has_alpha handle then heif_chroma_interleaved_RGBA
  else heif_chroma_interleaved_RGB

/-- Lines 96-98: the three releases at the end of `decode_image`. -/
def decode_releases (codec : Codec) : List Event :=
  [Event.heif_image_release codec.decoded_image, Event.heif_image_handle_release,
   Event.heif_context_free]

/-- Lines 59-99. -/
def decode_image (codec : Codec) (filename : String) (g : Globals) : Outcome :=
  let t0 := [Event.heif_context_alloc, Event.heif_context_read_from_file filename]
  match check_err (some codec.read_from_file) with
  | .error m => ⟨t0, g, .thrown m⟩
  | .ok _ =>
  match getImageIDs codec with
  | (ti, .error m) => ⟨t0 ++ ti, g, .thrown m⟩
  | (ti, .ok imgIds) =>
  match imgIds[0]? with
  | none => ⟨t0 ++ ti, g, .undefined_behaviour⟩
  | some id =>
  match get_img_handle codec id with
  | (th, .error m) => ⟨t0 ++ ti ++ th, g, .thrown m⟩
  | (th, .ok rawHandle) =>
  let colorSpace := get_img_handleColorSpace rawHandle
  let g1 : Globals :=
    { g with img_width := rawHandle.width, img_height := rawHandle.height,
             img_channels := if has_alpha rawHandle then 4 else 3 }
  let t1 := t0 ++ ti ++ th ++ [Event.heif_decode_image colorSpace codec.decoded_image]
  match codec.plane_readonly with
  | none => ⟨t1, g1, .thrown "Failed to extract image."⟩
  | some (data, stride) =>
  match toCompact data stride g1.img_width g1.img_height g1.img_channels g1.image_data with
  | none => ⟨t1, g1, .undefined_behaviour⟩
  | some pixels =>
  let g2 : Globals := { g1 with image_data := pixels }
  let size := rawHandle.raw_color_profile.length
  if size = 0 then
    ⟨t1 ++ decode_releases codec, g2, .returned⟩
  else
    let g3 : Globals :=
      { g2 with icc_color_profile_data := resize g2.icc_color_profile_data size }
    match check_err (some codec.get_raw_color_profile) with
    | .error m => ⟨t1, g3, .thrown m⟩
    | .ok _ =>
      ⟨t1 ++ decode_releases codec,
       { g3 with icc_color_profile_data := rawHandle.raw_color_profile }, .returned⟩

/-- Lines 137-142: the file write and the four releases at the end of `encode_image`. -/
def encode_finish : List Event :=
  [Event.heif_context_write_to_file "out.heic", Event.heif_image_handle_release,
   Event.heif_image_release true, Event.heif_encoder_release, Event.heif_context_free]

/-- Lines 101-143. -/
def encode_image (codec : Codec) (g : Globals) : Outcome :=
  let t0 := [Event.heif_context_alloc, Event.heif_context_get_encoder_for_format codec.encoder]
  if codec.encoder = false then
    ⟨t0, g, .thrown "Couldn't find matching encoder for encoding image data."⟩
  else
  let chroma :=
    if g.img_channels = 4 then heif_chroma_interleaved_RGBA else heif_chroma_interleaved_RGB
  let t1 := t0 ++ [Event.heif_encoder_set_lossless true]
  match check_err (some codec.image_create) with
  | .error m => ⟨t1 ++ [Event.heif_image_create g.img_width g.img_height chroma false], g, .thrown m⟩
  | .ok _ =>
  let t2 := t1 ++ [Event.heif_image_create g.img_width g.img_height chroma true,
                   Event.heif_image_add_plane g.img_width g.img_height (g.img_channels * 8)]
  match check_err (some codec.image_add_plane) with
  | .error m => ⟨t2, g, .thrown m⟩
  | .ok _ =>
  match codec.plane with
  | none => ⟨t2, g, .thrown "faild to write image to the buffer"⟩
  | some (p, stride) =>
  match toStrided g.image_data stride g.img_width g.img_height g.img_channels p with
  | none => ⟨t2, g, .undefined_behaviour⟩
  | some plane =>
  match check_err (some codec.encode_image) with
  | .error m => ⟨t2 ++ [Event.heif_context_encode_image plane false], g, .thrown m⟩
  | .ok _ =>
  let t3 := t2 ++ [Event.heif_context_encode_image plane true]
  if g.icc_color_profile_data.isEmpty then
    let t4 := t3 ++ [Event.heif_image_set_raw_color_profile "rICC"
                       g.icc_color_profile_data g.icc_color_profile_data.length]
    match check_err (some codec.set_raw_color_profile) with
    | .error m => ⟨t4, g, .thrown m⟩
    | .ok _ => ⟨t4 ++ encode_finish, g, .returned⟩
  else
    ⟨t3 ++ encode_finish, g, .returned⟩

/-! ## Observations on outcomes -/

/-- The `heif_image_set_raw_color_profile` calls of a trace, with their arguments. -/
def attachCalls : List Event → List (String × Bytes × Nat)
  | [] => []
  | Event.heif_image_set_raw_color_profile tag data size :: t => (tag, data, size) :: attachCalls t
  | _ :: t => attachCalls t

/-- Whether a trace contains a read of the image-ID list or a use of an image ID. -/
def usesImageID : List Event → Bool
  | [] => false
  | Event.heif_context_get_list_of_top_level_image_IDs _ :: _ => true
  | Event.heif_context_get_image_handle _ _ :: _ => true
  | _ :: t => usesImageID t

/-- A success status. -/
def okStatus : heif_error := ⟨heif_error_Ok, "Success"⟩

/-- A failure status (code 7 is `heif_error_Decoder_plugin_error` in libheif). -/
def failStatus : heif_error := ⟨7, "Decoder plugin error"⟩

/-- The globals at program start (zero-initialised). -/
def initialGlobals : Globals := ⟨0, 0, 0, [], []⟩

/-- Handle of a 1x2 image without alpha and without a colour profile. -/
def rgbHandle : heif_image_handle := ⟨1, 2, 0, 0, []⟩

/-- A codec for which every call succeeds: one 1x2 RGB image, planes of stride 4. -/
def goodCodec : Codec where
  read_from_file := okStatus
  number_of_top_level_images := 1
  list_of_top_level_image_IDs := [1]
  get_image_handle := fun _ => (okStatus, rgbHandle)
  decode_image_status := okStatus
  decoded_image := true
  plane_readonly := some ([1, 2, 3, 9, 4, 5, 6, 9], 4)
  get_raw_color_profile := okStatus
  encoder := true
  image_create := okStatus
  image_add_plane := okStatus
  plane := some ([0, 0, 0, 0, 0, 0, 0, 0], 4)
  encode_image := okStatus
  set_raw_color_profile := okStatus

/-- Globals after a successful decode of the 1x2 RGB image, without a colour profile. -/
def decodedGlobals : Globals := ⟨1, 2, 3, [1, 2, 3, 4, 5, 6], []⟩

/-- The same globals with a three-byte colour profile. -/
def decodedGlobalsWithProfile : Globals := ⟨1, 2, 3, [1, 2, 3, 4, 5, 6], [10, 20, 30]⟩

/-- A container that opens but reports zero top-level images. -/
def emptyContainerCodec : Codec :=
  { goodCodec with number_of_top_level_images := 0, list_of_top_level_image_IDs := [] }

/-- A codec whose `heif_decode_image` reports a failure and stores no image, and whose
`heif_image_get_plane_readonly` then returns a null pointer. -/
def decodeFailsCodec : Codec :=
  { goodCodec with decode_image_status := failStatus, decoded_image := false,
                   plane_readonly := none }

/-- A codec whose `heif_decode_image` reports a failure but which still hands out an
image with a readable plane. -/
def decodeFailsWithPlaneCodec : Codec :=
  { goodCodec with decode_image_status := failStatus }

/-- A codec that offers no encoder. -/
def noEncoderCodec : Codec := { goodCodec with encoder := false }

/-- Resource accounting of an outcome: a normal return has balanced acquisitions and
releases for every kind of handle; a throw has acquired its context and made no
release call. -/
def Outcome.accounted (o : Outcome) : Prop :=
  (o.exit = Exit.returned → ∀ r, acquireCount r o.trace = releaseCount r o.trace) ∧
  (∀ m, o.exit = Exit.thrown m →
    acquireCount Resource.context o.trace = 1 ∧ ∀ r, releaseCount r o.trace = 0)

/-! ## Plane transfer: lemmas -/

/-- The checked copy does detect an access outside a buffer: with a plane one byte
short of `h * stride` rows the decode-side loop yields `none`. -/
theorem toCompact_short_plane : toCompact [1, 2, 3, 9, 4, 5] 4 1 2 3 [] = none := by
  decide

/-! ## Pipelines: claims -/

/-- A successful `getImageIDs` made both enumeration calls and returns as many IDs as
the codec reported. -/
theorem getImageIDs_ok (codec : Codec) (ti : List Event) (ids : List Nat)
    (h : getImageIDs codec = (ti, .ok ids)) :
    ti = [Event.heif_context_get_number_of_top_level_images,
          Event.heif_context_get_list_of_top_level_image_IDs codec.number_of_top_level_images] ∧
    ids.length = codec.number_of_top_level_images ∧ codec.number_of_top_level_images ≠ 0 := by
  unfold getImageIDs get_img_count at h
  dsimp only at h
  split at h
  · simp at h
  · rename_i hn
    simp only [Prod.mk.injEq, Except.ok.injEq] at h
    obtain ⟨h1, h2⟩ := h
    refine ⟨h1.symm, ?_, hn⟩
    rw [← h2]
    simp

/-- A failing `getImageIDs` made only the count query and throws "DataNotExists". -/
theorem getImageIDs_error (codec : Codec) (ti : List Event) (m : String)
    (h : getImageIDs codec = (ti, .error m)) :
    ti = [Event.heif_context_get_number_of_top_level_images] ∧ m = "DataNotExists" ∧
      codec.number_of_top_level_images = 0 := by
  unfold getImageIDs get_img_count at h
  dsimp only at h
  split at h
  · rename_i hn
    simp only [Prod.mk.injEq, Except.error.injEq] at h
    exact ⟨h.1.symm, h.2.symm, hn⟩
  · simp at h

/-- A successful `get_img_handle` recorded one acquiring call. -/
theorem get_img_handle_ok (codec : Codec) (id : Nat) (th : List Event)
    (rawHandle : heif_image_handle) (h : get_img_handle codec id = (th, .ok rawHandle)) :
    th = [Event.heif_context_get_image_handle id true] := by
  unfold get_img_handle at h
  dsimp only at h
  split at h
  · simp at h
  · simp only [Prod.mk.injEq] at h
    exact h.1.symm

/-- A failing `get_img_handle` recorded one call that acquired nothing. -/
theorem get_img_handle_error (codec : Codec) (id : Nat) (th : List Event) (m : String)
    (h : get_img_handle codec id = (th, .error m)) :
    th = [Event.heif_context_get_image_handle id false] := by
  unfold get_img_handle at h
  dsimp only at h
  split at h
  · simp only [Prod.mk.injEq] at h
    exact h.1.symm
  · simp at h

/-- The status of `heif_decode_image` has no influence on `decode_image`. -/
theorem decode_image_ignores_decode_status (codec : Codec) (e : heif_error)
    (filename : String) (g : Globals) :
    decode_image { codec with decode_image_status := e } filename g =
      decode_image codec filename g := by
  rfl

/-- The function `check_err` throws exactly when the status code is not `heif_error_Ok`, and then
throws the status message. -/
theorem check_err_throws_iff (e : heif_error) :
    (check_err (some e) = .error e.message ↔ e.code ≠ heif_error_Ok) ∧
    (check_err (some e) = .ok () ↔ e.code = heif_error_Ok) := by
  unfold check_err
  by_cases h : e.code = heif_error_Ok <;> simp [h]

/-- Whenever `encode_image` returns, it made the attach call exactly when the profile
was empty, and then with the empty profile. -/
theorem encode_image_attach_iff_empty (codec : Codec) (g : Globals)
    (hret : (encode_image codec g).exit = Exit.returned) :
    attachCalls (encode_image codec g).trace =
      if g.icc_color_profile_data.isEmpty then
        [("rICC", g.icc_color_profile_data, g.icc_color_profile_data.length)]
      else [] := by
  unfold encode_image at hret ⊢
  dsimp only at hret ⊢
  repeat' split
  all_goals first
    | (exfalso; revert hret; simp; done)
    | simp_all [attachCalls, encode_finish]

/-- C7, evaluation at the failing input: with a three-byte profile and a codec for
which every call succeeds, `encode_image` returns without any attach call; with an empty
profile it makes the attach call, with no bytes. -/
theorem C7_profile_attach_inverted :
    decodedGlobalsWithProfile.icc_color_profile_data = [10, 20, 30] ∧
    (encode_image goodCodec decodedGlobalsWithProfile).exit = Exit.returned ∧
    attachCalls (encode_image goodCodec decodedGlobalsWithProfile).trace = [] ∧
    (encode_image goodCodec decodedGlobals).exit = Exit.returned ∧
    attachCalls (encode_image goodCodec decodedGlobals).trace = [("rICC", [], 0)] := by
  decide

/-- C8 (zero-image rejection): when the codec reports zero top-level images,
`getImageIDs` throws "DataNotExists" after the count query alone, and `decode_image`
throws (with "DataNotExists" when the container opened), reads or uses no image ID and
leaves the globals as they were; when the codec reports a positive count `n`,
`getImageIDs` returns exactly `n` IDs and index 0 is defined. -/
theorem C8_zero_image_rejection (codec : Codec) (filename : String) (g : Globals) :
    (codec.number_of_top_level_images = 0 →
      getImageIDs codec =
        ([Event.heif_context_get_number_of_top_level_images], .error "DataNotExists") ∧
      (∃ m, (decode_image codec filename g).exit = Exit.thrown m) ∧
      (codec.read_from_file.code = heif_error_Ok →
        (decode_image codec filename g).exit = Exit.thrown "DataNotExists") ∧
      usesImageID (decode_image codec filename g).trace = false ∧
      (decode_image codec filename g).globals = g) ∧
    (0 < codec.number_of_top_level_images →
      ∃ ti ids id, getImageIDs codec = (ti, .ok ids) ∧
        ids.length = codec.number_of_top_level_images ∧ ids[0]? = some id) := by
  constructor
  · intro h0
    have hget : getImageIDs codec =
        ([Event.heif_context_get_number_of_top_level_images], .error "DataNotExists") := by
      simp [getImageIDs, get_img_count, h0]
    have hdec : decode_image codec filename g =
        if codec.read_from_file.code = heif_error_Ok then
          ⟨[Event.heif_context_alloc, Event.heif_context_read_from_file filename,
            Event.heif_context_get_number_of_top_level_images], g, Exit.thrown "DataNotExists"⟩
        else
          ⟨[Event.heif_context_alloc, Event.heif_context_read_from_file filename], g,
            Exit.thrown codec.read_from_file.message⟩ := by
      unfold decode_image
      by_cases hr : codec.read_from_file.code = heif_error_Ok
      · simp [check_err, hr, hget]
      · simp [check_err, hr]
    rw [hdec]
    refine ⟨hget, ?_, ?_, ?_, ?_⟩
    · split
      · exact ⟨_, rfl⟩
      · exact ⟨_, rfl⟩
    · intro hr
      rw [if_pos hr]
    · split <;> rfl
    · split <;> rfl
  · intro hpos
    have hne : codec.number_of_top_level_images ≠ 0 := by omega
    obtain ⟨L, hL⟩ : ∃ L : List Nat, L =
        List.take codec.number_of_top_level_images codec.list_of_top_level_image_IDs ++
        List.drop (List.take codec.number_of_top_level_images
          codec.list_of_top_level_image_IDs).length
          (List.replicate codec.number_of_top_level_images 0) := ⟨_, rfl⟩
    have hlen : L.length = codec.number_of_top_level_images := by
      rw [hL]
      simp
    have hget : getImageIDs codec =
        ([Event.heif_context_get_number_of_top_level_images,
          Event.heif_context_get_list_of_top_level_image_IDs codec.number_of_top_level_images],
         .ok L) := by
      simp only [getImageIDs, get_img_count, hne, if_false, hL]
    have h0 : 0 < L.length := by omega
    exact ⟨_, L, L[0], hget, hlen, List.getElem?_eq_getElem h0⟩

/-- Witness for C8: a container with zero images and a container with one image. -/
theorem C8_zero_image_rejection_witness :
    (getImageIDs emptyContainerCodec =
        ([Event.heif_context_get_number_of_top_level_images], .error "DataNotExists") ∧
      (∃ m, (decode_image emptyContainerCodec "in.heic" initialGlobals).exit = Exit.thrown m) ∧
      (emptyContainerCodec.read_from_file.code = heif_error_Ok →
        (decode_image emptyContainerCodec "in.heic" initialGlobals).exit =
          Exit.thrown "DataNotExists") ∧
      usesImageID (decode_image emptyContainerCodec "in.heic" initialGlobals).trace = false ∧
      (decode_image emptyContainerCodec "in.heic" initialGlobals).globals = initialGlobals) ∧
    (∃ ti ids id, getImageIDs goodCodec = (ti, .ok ids) ∧
        ids.length = goodCodec.number_of_top_level_images ∧ ids[0]? = some id) :=
  ⟨(C8_zero_image_rejection emptyContainerCodec "in.heic" initialGlobals).1 rfl,
   (C8_zero_image_rejection goodCodec "in.heic" initialGlobals).2 (by decide)⟩

/-- C9, evaluation at the failing inputs: `heif_decode_image` reports a failure status
(which `check_err` would throw); when the codec still hands out a plane `decode_image`
returns normally, and when the plane is null it throws the null-plane message, not
the status message. -/
theorem C9_decode_status_unchecked :
    decodeFailsWithPlaneCodec.decode_image_status.code ≠ heif_error_Ok ∧
    check_err (some decodeFailsWithPlaneCodec.decode_image_status) =
      .error "Decoder plugin error" ∧
    (decode_image decodeFailsWithPlaneCodec "in.heic" initialGlobals).exit = Exit.returned ∧
    (decode_image decodeFailsWithPlaneCodec "in.heic" initialGlobals).globals = decodedGlobals ∧
    decodeFailsCodec.decode_image_status.code ≠ heif_error_Ok ∧
    (decode_image decodeFailsCodec "in.heic" initialGlobals).exit =
      Exit.thrown "Failed to extract image." := by
  refine ⟨by decide, rfl, by decide, by decide, by decide, by decide⟩

/-- A null plane pointer makes `decode_image` throw once it holds the image handle. -/
theorem decode_image_null_plane (codec : Codec) (filename : String) (g : Globals)
    (ti th : List Event) (ids : List Nat) (id : Nat) (rawHandle : heif_image_handle)
    (hread : codec.read_from_file.code = heif_error_Ok)
    (hids : getImageIDs codec = (ti, .ok ids)) (hid : ids[0]? = some id)
    (hhandle : get_img_handle codec id = (th, .ok rawHandle))
    (hplane : codec.plane_readonly = none) :
    (decode_image codec filename g).exit = Exit.thrown "Failed to extract image." := by
  unfold decode_image
  simp only [check_err, hread, hids, hid, hhandle, hplane, if_true]

/-- C10 as stated fails: on a container with zero images `decode_image` throws
"DataNotExists" with the container context acquired and never released. -/
theorem C10_counterexample :
    (decode_image emptyContainerCodec "in.heic" initialGlobals).exit =
      Exit.thrown "DataNotExists" ∧
    acquireCount Resource.context
      (decode_image emptyContainerCodec "in.heic" initialGlobals).trace = 1 ∧
    releaseCount Resource.context
      (decode_image emptyContainerCodec "in.heic" initialGlobals).trace = 0 ∧
    ¬ (∀ r, acquireCount r (decode_image emptyContainerCodec "in.heic" initialGlobals).trace =
        releaseCount r (decode_image emptyContainerCodec "in.heic" initialGlobals).trace) := by
  refine ⟨by decide, by decide, by decide, fun h => ?_⟩
  have hc := h Resource.context
  revert hc
  decide

/-- A normal return with balanced counts is accounted. -/
theorem accounted_returned (t : List Event) (g : Globals)
    (h : ∀ r, acquireCount r t = releaseCount r t) :
    Outcome.accounted ⟨t, g, Exit.returned⟩ :=
  ⟨fun _ => h, fun _ hm => Exit.noConfusion hm⟩

/-- A throw after one context acquisition and no release is accounted. -/
theorem accounted_thrown (t : List Event) (g : Globals) (m : String)
    (ha : acquireCount Resource.context t = 1) (hr : ∀ r, releaseCount r t = 0) :
    Outcome.accounted ⟨t, g, Exit.thrown m⟩ :=
  ⟨fun hret => Exit.noConfusion hret, fun _ _ => ⟨ha, hr⟩⟩

/-- An access outside a buffer is neither a return nor a throw. -/
theorem accounted_undefined (t : List Event) (g : Globals) :
    Outcome.accounted ⟨t, g, Exit.undefined_behaviour⟩ :=
  ⟨fun hret => Exit.noConfusion hret, fun _ hm => Exit.noConfusion hm⟩

/-- Every outcome of `decode_image` is accounted. -/
theorem decode_image_accounted (codec : Codec) (filename : String) (g : Globals) :
    (decode_image codec filename g).accounted := by
  unfold decode_image
  dsimp only
  split
  · exact accounted_thrown _ _ _ (by simp [acquireCount, Event.acquires])
      (fun r => by cases r <;> simp [releaseCount, Event.releases])
  · split
    · rename_i ti m hg
      obtain ⟨hti, _, _⟩ := getImageIDs_error codec ti m hg
      subst hti
      exact accounted_thrown _ _ _ (by simp [acquireCount, Event.acquires])
        (fun r => by cases r <;> simp [releaseCount, Event.releases])
    · rename_i ti ids hg
      obtain ⟨hti, _, _⟩ := getImageIDs_ok codec ti ids hg
      subst hti
      split
      · exact accounted_undefined _ _
      · split
        · rename_i id hid _ th m hh
          have hth := get_img_handle_error codec id th m hh
          subst hth
          exact accounted_thrown _ _ _ (by simp [acquireCount, Event.acquires])
            (fun r => by cases r <;> simp [releaseCount, Event.releases])
        · rename_i id hid _ th rawHandle hh
          have hth := get_img_handle_ok codec id th rawHandle hh
          subst hth
          repeat' split
          all_goals first
            | exact accounted_undefined _ _
            | exact accounted_thrown _ _ _
                (by cases hb : codec.decoded_image <;> simp [acquireCount, Event.acquires])
                (fun r => by
                  cases hb : codec.decoded_image <;> cases r <;>
                    simp [releaseCount, Event.releases])
            | exact accounted_returned _ _ (fun r => by
                cases hb : codec.decoded_image <;> cases r <;>
                  simp [acquireCount, releaseCount, Event.acquires, Event.releases,
                    decode_releases, hb])

/-- Every outcome of `encode_image` is accounted. -/
theorem encode_image_accounted (codec : Codec) (g : Globals) :
    (encode_image codec g).accounted := by
  unfold encode_image
  dsimp only
  split
  · rename_i henc
    exact accounted_thrown _ _ _ (by simp [acquireCount, Event.acquires, henc])
      (fun r => by cases r <;> simp [releaseCount, Event.releases])
  · rename_i henc
    have henc : codec.encoder = true := by simpa using henc
    repeat' split
    all_goals first
      | exact accounted_undefined _ _
      | exact accounted_thrown _ _ _ (by simp [acquireCount, Event.acquires, henc])
          (fun r => by cases r <;> simp [releaseCount, Event.releases])
      | exact accounted_returned _ _ (fun r => by
          cases r <;>
            simp [acquireCount, releaseCount, Event.acquires, Event.releases,
              encode_finish, henc])

/-- C10 amended: when `decode_image` or `encode_image` returns normally, acquisitions
and releases balance for every kind of handle; when either throws, it has acquired its
context and made no release call at all. -/
theorem C10_cleanup_amended (codec : Codec) (filename : String) (g : Globals) :
    ((decode_image codec filename g).exit = Exit.returned →
      ∀ r, acquireCount r (decode_image codec filename g).trace =
        releaseCount r (decode_image codec filename g).trace) ∧
    ((encode_image codec g).exit = Exit.returned →
      ∀ r, acquireCount r (encode_image codec g).trace =
        releaseCount r (encode_image codec g).trace) ∧
    (∀ m, (decode_image codec filename g).exit = Exit.thrown m →
      acquireCount Resource.context (decode_image codec filename g).trace = 1 ∧
      ∀ r, releaseCount r (decode_image codec filename g).trace = 0) ∧
    (∀ m, (encode_image codec g).exit = Exit.thrown m →
      acquireCount Resource.context (encode_image codec g).trace = 1 ∧
      ∀ r, releaseCount r (encode_image codec g).trace = 0) := by
  exact ⟨(decode_image_accounted codec filename g).1, (encode_image_accounted codec g).1,
    (decode_image_accounted codec filename g).2, (encode_image_accounted codec g).2⟩

/-- Witness for C10 amended: a successful decode and encode, a decode of a container
without images, and an encode without an encoder. -/
theorem C10_cleanup_amended_witness :
    (∀ r, acquireCount r (decode_image goodCodec "in.heic" initialGlobals).trace =
        releaseCount r (decode_image goodCodec "in.heic" initialGlobals).trace) ∧
    (∀ r, acquireCount r (encode_image goodCodec decodedGlobals).trace =
        releaseCount r (encode_image goodCodec decodedGlobals).trace) ∧
    (acquireCount Resource.context
        (decode_image emptyContainerCodec "in.heic" initialGlobals).trace = 1 ∧
      ∀ r, releaseCount r (decode_image emptyContainerCodec "in.heic" initialGlobals).trace = 0) ∧
    (acquireCount Resource.context (encode_image noEncoderCodec decodedGlobals).trace = 1 ∧
      ∀ r, releaseCount r (encode_image noEncoderCodec decodedGlobals).trace = 0) :=
  ⟨(C10_cleanup_amended goodCodec "in.heic" initialGlobals).1 (by decide),
   (C10_cleanup_amended goodCodec "in.heic" decodedGlobals).2.1 (by decide),
   (C10_cleanup_amended emptyContainerCodec "in.heic" initialGlobals).2.2.1 "DataNotExists"
     (by decide),
   (C10_cleanup_amended noEncoderCodec "in.heic" decodedGlobals).2.2.2
     "Couldn't find matching encoder for encoding image data." (by decide)⟩

end Heif
